import Mathlib

/-!
Verification of the brown-noise generator (src/main.py).

The program filters white noise through a one-pole leaky integrator
implemented with `scipy.signal.lfilter` using coefficient arrays
`b = [1 - leak]` and `a = [1, -leak]`, carries the filter state `zi`
across audio callbacks, maps a bass slider value to `leak` with
`np.interp(bass, [20, 200], [0.95, 0.999])`, scales the filtered block by
a volume in `[0, 1]`, and toggles an output stream on and off.

Floating-point samples and coefficients are modelled as exact rationals.
-/

set_option autoImplicit false

/-- `scipy.signal.lfilter` specialised to the one-pole case used by the
program: coefficient arrays `b = [b0]` (padded to `[b0, 0]`) and
`a = [1, a1]`, with initial condition `zi`.  Direct form II transposed:
`y[n] = b0 * x[n] + z[n-1]` and `z[n] = b1 * x[n] - a1 * y[n] = -a1 * y[n]`.
Returns the output sequence together with the final state `zf`. -/
def lfilter (b0 a1 : ℚ) (zi : ℚ) : List ℚ → List ℚ × ℚ
  | [] => ([], zi)
  | x :: xs =>
    let y := b0 * x + zi
    let r := lfilter b0 a1 (-a1 * y) xs
    (y :: r.1, r.2)

/-- `np.interp(bass_value, [20, 200], [0.95, 0.999])`: linear interpolation
between the anchor points 20 ↦ 0.95 and 200 ↦ 0.999, clamped to the end
values outside the range. -/
def interp (x : ℚ) : ℚ :=
  if x ≤ 20 then 95 / 100
  else if 200 ≤ x then 999 / 1000
  else 95 / 100 + (x - 20) * ((999 / 1000 - 95 / 100) / (200 - 20))

/-- The numeric fields of `BrownNoiseGenerator` touched by the audio path:
`volume`, `bass_level`, the derived `leak`, the precomputed coefficient
arrays `b_coef = [1 - leak]` and `a_coef = [1, -leak]` (only the nontrivial
entries `b_coef[0]` and `a_coef[1]` are stored), and the filter state
`zi` (a single scalar). -/
structure AppState where
  volume : ℚ
  bass_level : ℚ
  leak : ℚ
  b_coef : ℚ
  a1_coef : ℚ
  zi : ℚ
deriving DecidableEq

/-- `update_leak_from_bass`: recomputes `leak` from the bass value via
`np.interp` and the filter coefficient arrays from `leak`. -/
def update_leak_from_bass (s : AppState) (bass_value : ℚ) : AppState :=
  let l := interp bass_value
  { s with leak := l, b_coef := 1 - l, a1_coef := -l }

/-- `update_volume`: the slider hands a value in `[0, 100]`; the stored
volume is `value / 100`. -/
def update_volume (s : AppState) (value : ℚ) : AppState :=
  { s with volume := value / 100 }

/-- `update_bass`: stores the slider value and recomputes `leak` and the
coefficients; the (commented-out) reset of `zi` is absent, matching the
source. -/
def update_bass (s : AppState) (value : ℚ) : AppState :=
  update_leak_from_bass { s with bass_level := value } value

/-- `BrownNoiseGenerator.__init__`: volume 0.5, filter state `zi = [0]`,
default bass level 100 followed by `update_leak_from_bass(100)`. -/
def initState : AppState :=
  update_leak_from_bass
    { volume := 1 / 2, bass_level := 100, leak := 0, b_coef := 0,
      a1_coef := 0, zi := 0 } 100

/-- The recursive coefficient of the filter: `a_coef = [1, -leak]` makes the
recursion `y[n] = b_coef[0] * x[n] - a_coef[1] * y[n-1]`, so the feedback
coefficient is `-a_coef[1]`. -/
def feedback (s : AppState) : ℚ :=
  -(s.a1_coef)

/-- `audio_callback` on a block of white-noise samples (the draws of
`np.random.randn(frames)` are passed in as a list): filters the block with
`signal.lfilter(b_coef, a_coef, white, zi)`, stores the returned state in
`zi`, and outputs the filtered block scaled by the volume. -/
def audio_callback (s : AppState) (white : List ℚ) : List ℚ × AppState :=
  let r := lfilter s.b_coef s.a1_coef s.zi white
  (r.1.map (fun v => v * s.volume), { s with zi := r.2 })

/-- Error kinds of the specification. -/
inductive ErrKind where
  | InvalidArgument
  | DeviceUnavailable
deriving DecidableEq

/-- The callback's generation step with an explicit integer frame count:
`np.random.randn(frames)` rejects a negative size (ValueError — modelled as
`InvalidArgument`); otherwise the first `frames` samples of the white-noise
stream are drawn and filtered as in `audio_callback`. -/
def generateBlock (s : AppState) (frames : ℤ) (white : ℕ → ℚ) :
    Except ErrKind (List ℚ × ℚ) :=
  if frames < 0 then .error .InvalidArgument
  else .ok (lfilter s.b_coef s.a1_coef s.zi ((List.range frames.toNat).map white))

/-- The specification's recurrence `y[k] = ff * x[k] + fb * y[k-1]`,
unrolled from the previous output sample `yprev` (`y[-1]`). -/
def filterSpec (ff fb : ℚ) (yprev : ℚ) : List ℚ → List ℚ
  | [] => []
  | x :: xs =>
    let y := ff * x + fb * yprev
    y :: filterSpec ff fb y xs

/-- The controller fields touched by `toggle_playback`: the `is_playing`
flag, the button and status texts, whether `self.stream` has ever been
assigned (`hasattr`), whether the currently assigned stream is started and
not yet stopped, and the total number of running output streams. -/
structure Ctrl where
  is_playing : Bool
  button : String
  status : String
  hasStream : Bool
  streamActive : Bool
  active : ℕ
deriving DecidableEq

/-- Controller fields at `__init__`/`create_gui`: not playing, button text
"Start", status "Ready", no stream attribute yet. -/
def initCtrl : Ctrl :=
  { is_playing := false, button := "Start", status := "Ready",
    hasStream := false, streamActive := false, active := 0 }

/-- `toggle_playback`: from a non-playing state it sets `is_playing`,
button and status first and then opens and starts the output stream
(`deviceOk = false` models `sd.OutputStream`/`start` raising, modelled as
`DeviceUnavailable`, after the flag was already flipped); from a playing
state it clears the flag and, if a stream attribute exists, stops and
closes it. -/
def toggle_playback (s : Ctrl) (deviceOk : Bool) : Ctrl × Option ErrKind :=
  if ¬ s.is_playing then
    let s1 := { s with is_playing := true, button := "Stop", status := "Playing" }
    if deviceOk then
      ({ s1 with hasStream := true, streamActive := true, active := s1.active + 1 },
        none)
    else (s1, some .DeviceUnavailable)
  else
    let s1 := { s with is_playing := false, button := "Start", status := "Stopped" }
    if s1.hasStream then
      ({ s1 with
          streamActive := false
          active := s1.active - (if s1.streamActive then 1 else 0) }, none)
    else (s1, none)

/-- The `start()` operation of the specification as realised by the code:
`toggle_playback` reaches its stream-opening branch exactly when
`is_playing` is false, so starting while already playing does nothing
(no second stream is ever created). -/
def start (s : Ctrl) (deviceOk : Bool) : Ctrl × Option ErrKind :=
  if s.is_playing then (s, none) else toggle_playback s deviceOk

/-- The `stop()` operation of the specification as realised by the code:
`toggle_playback` reaches its stream-closing branch exactly when
`is_playing` is true, so stopping while already stopped does nothing. -/
def stop (s : Ctrl) : Ctrl :=
  if s.is_playing then (toggle_playback s true).1 else s

/-- Runs `toggle_playback` over a sequence of presses, each with its own
device availability. -/
def runToggles (s : Ctrl) : List Bool → Ctrl
  | [] => s
  | ok :: rest => runToggles (toggle_playback s ok).1 rest

/-! ### Helper lemmas -/

theorem lfilter_length (b0 a1 zi : ℚ) (xs : List ℚ) :
    (lfilter b0 a1 zi xs).1.length = xs.length := by
  induction xs generalizing zi with
  | nil => rfl
  | cons x xs ih => simp [lfilter, ih]

/-- The interpolation formula with its slope constant evaluated. -/
theorem interp_eq (x : ℚ) :
    interp x = if x ≤ 20 then 19 / 20
      else if 200 ≤ x then 999 / 1000
      else 19 / 20 + (x - 20) * (49 / 180000) := by
  unfold interp
  norm_num

/-! ### Claim theorems -/

/-- C1 (counterexample): with the program's own coefficients at bass
level 20 (`feedforward = 1/20`, `feedback = 19/20`) and delay state 0, the
output on the one-sample input `[1]` is `y[0] = 1/20`, but the delay state
stored after the call is `19/400 = feedback * y[0]`, not `y[0]`; so the
claim that after returning the delay state equals `y[n-1]` is false. -/
theorem C1_counterexample :
    (lfilter (update_bass initState 20).b_coef (update_bass initState 20).a1_coef
        (update_bass initState 20).zi [1]).1 = [1 / 20] ∧
    (lfilter (update_bass initState 20).b_coef (update_bass initState 20).a1_coef
        (update_bass initState 20).zi [1]).2 ≠ 1 / 20 := by
  norm_num [lfilter, update_bass, update_leak_from_bass, interp, initState]

/-- C1 (amended): the block-generation step returns exactly the sequence
`y[k] = feedforward * x[k] + feedback * y[k-1]` with `y[-1] = yprev`,
provided the delay state carried in equals `feedback * yprev` (the previous
output sample scaled by the feedback coefficient, which is how
`signal.lfilter` stores it); after returning, the delay state equals
`feedback * y[n-1]` (and is unchanged on an empty block).  The program
passes `a_coef[1] = -feedback`, hence the `-fb` argument. -/
theorem C1_filter_recurrence (ff fb yprev : ℚ) (xs : List ℚ) :
    lfilter ff (-fb) (fb * yprev) xs =
      (filterSpec ff fb yprev xs,
        fb * (filterSpec ff fb yprev xs).getLastD yprev) := by
  induction xs generalizing yprev with
  | nil => rfl
  | cons x xs ih =>
    simp only [lfilter, filterSpec, List.getLastD_cons, neg_neg]
    rw [ih (ff * x + fb * yprev)]

/-- C2: filtering a concatenated input in one call equals filtering the
first part and then the second part from the carried-over state, both for
the output samples and for the final state: blockwise generation is
equivalent to continuous generation. -/
theorem C2_block_continuity (b0 a1 zi : ℚ) (xs ys : List ℚ) :
    lfilter b0 a1 zi (xs ++ ys) =
      ((lfilter b0 a1 zi xs).1 ++ (lfilter b0 a1 (lfilter b0 a1 zi xs).2 ys).1,
        (lfilter b0 a1 (lfilter b0 a1 zi xs).2 ys).2) := by
  induction xs generalizing zi with
  | nil => simp [lfilter]
  | cons x xs ih => simp [lfilter, ih]

/-- C3: the bass-to-leak mapping is the program's `np.interp` between
20 ↦ 0.95 and 200 ↦ 0.999: `update_bass` stores `interp` of the slider
value as `leak`; the mapping is monotonically non-decreasing;
`leak(20) = 0.95`, `leak(200) = 0.999`, `leak(110) = 0.9745`; and values
outside `[20, 200]` are clamped to the corresponding bound. -/
theorem C3_leak_mapping :
    (∀ (s : AppState) (v : ℚ), (update_bass s v).leak = interp v) ∧
    (∀ a b : ℚ, a ≤ b → interp a ≤ interp b) ∧
    interp 20 = 95 / 100 ∧
    interp 200 = 999 / 1000 ∧
    interp 110 = 9745 / 10000 ∧
    (∀ v : ℚ, v ≤ 20 → interp v = interp 20) ∧
    (∀ v : ℚ, 200 ≤ v → interp v = interp 200) := by
  refine ⟨fun s v => rfl, ?_, by norm_num [interp_eq], by norm_num [interp_eq],
    by norm_num [interp_eq], ?_, ?_⟩
  · intro a b hab
    rw [interp_eq, interp_eq]
    split_ifs <;> linarith
  · intro v hv
    rw [interp_eq, interp_eq]
    split_ifs <;> linarith
  · intro v hv
    rw [interp_eq, interp_eq]
    split_ifs <;> linarith

/-- C3 (witness): the monotonicity and clamping parts of `C3_leak_mapping`
instantiated at concrete bass values. -/
theorem C3_leak_mapping_witness :
    interp 30 ≤ interp 40 ∧ interp 10 = interp 20 ∧ interp 300 = interp 200 :=
  ⟨C3_leak_mapping.2.1 30 40 (by norm_num),
    C3_leak_mapping.2.2.2.2.2.1 10 (by norm_num),
    C3_leak_mapping.2.2.2.2.2.2 300 (by norm_num)⟩

/-- C4: after any bass update the derived coefficients satisfy
`feedforward = 1 - leak` (`b_coef[0]`), `feedback = leak` (the recursion
coefficient `-a_coef[1]`), and hence `feedforward + feedback = 1`. -/
theorem C4_coefficient_invariant (s : AppState) (v : ℚ) :
    (update_bass s v).b_coef = 1 - (update_bass s v).leak ∧
    feedback (update_bass s v) = (update_bass s v).leak ∧
    (update_bass s v).b_coef + feedback (update_bass s v) = 1 := by
  refine ⟨rfl, ?_, ?_⟩ <;> simp [update_bass, update_leak_from_bass, feedback]

/-- C5: a bass update recomputes only the bass level, the leak and the
coefficients; the filter delay state `zi` after the update equals the one
before (the reset is commented out in the source). -/
theorem C5_bass_update_preserves_filter_state (s : AppState) (v : ℚ) :
    (update_bass s v).zi = s.zi := rfl

/-- C6: after setting the volume to zero, the callback's output block is
identically zero, for every filter state, coefficient pair, and input
block of white noise. -/
theorem C6_zero_volume_silence (s : AppState) (white : List ℚ) :
    (audio_callback (update_volume s 0) white).1 =
      List.replicate white.length 0 := by
  have h0 : ((0 : ℚ) / 100) = 0 := by norm_num
  simp [audio_callback, update_volume, h0, lfilter_length]

/-- C7 (code behaviour at the failing input): pressing the button from the
initial stopped state when the device cannot be opened surfaces
`DeviceUnavailable`, but `is_playing` was already set to `true` (and the
button text to "Stop") before the stream was opened, so the controller
state does not remain Stopped. -/
theorem C7_failed_start_not_stopped :
    initCtrl.is_playing = false ∧
    (toggle_playback initCtrl false).2 = some ErrKind.DeviceUnavailable ∧
    (toggle_playback initCtrl false).1.is_playing = true ∧
    (toggle_playback initCtrl false).1.button = "Stop" := by
  refine ⟨rfl, rfl, rfl, rfl⟩

/-- C8: the generation step fails exactly on a negative frame count, and
then with `InvalidArgument` (modelling `np.random.randn` rejecting a
negative size); for every non-negative frame count it succeeds, so there
is no other failure mode. -/
theorem C8_generateBlock_failure_modes :
    (∀ (s : AppState) (w : ℕ → ℚ) (n : ℤ), n < 0 →
        generateBlock s n w = Except.error ErrKind.InvalidArgument) ∧
    (∀ (s : AppState) (w : ℕ → ℚ) (n : ℤ), 0 ≤ n →
        ∃ r, generateBlock s n w = Except.ok r) := by
  constructor
  · intro s w n hn
    simp [generateBlock, hn]
  · intro s w n hn
    refine ⟨lfilter s.b_coef s.a1_coef s.zi ((List.range n.toNat).map w), ?_⟩
    simp [generateBlock, not_lt.mpr hn]

/-- C8 (witness): `generateBlock` at frame counts `-1` and `3`. -/
theorem C8_generateBlock_failure_modes_witness :
    generateBlock initState (-1) (fun _ => 0) = Except.error ErrKind.InvalidArgument ∧
    ∃ r, generateBlock initState 3 (fun _ => 0) = Except.ok r :=
  ⟨C8_generateBlock_failure_modes.1 initState (fun _ => 0) (-1) (by decide),
    C8_generateBlock_failure_modes.2 initState (fun _ => 0) 3 (by decide)⟩

/-- Controller invariant: the currently held stream is running exactly when
one stream is running globally, a running stream implies the playing flag
and the stream attribute, and otherwise no stream is running. -/
def CtrlInv (s : Ctrl) : Prop :=
  (s.streamActive = true → s.active = 1 ∧ s.is_playing = true ∧ s.hasStream = true) ∧
  (s.streamActive = false → s.active = 0)

theorem ctrlInv_toggle (s : Ctrl) (ok : Bool) (h : CtrlInv s) :
    CtrlInv (toggle_playback s ok).1 := by
  obtain ⟨h1, h2⟩ := h
  rcases s with ⟨ip, bt, st, hs, sa, ac⟩
  simp only [toggle_playback] at *
  cases ip <;> cases ok <;> cases hs <;> cases sa <;>
    simp_all [CtrlInv]

theorem ctrlInv_runToggles (l : List Bool) (s : Ctrl) (h : CtrlInv s) :
    CtrlInv (runToggles s l) := by
  induction l generalizing s with
  | nil => exact h
  | cons ok rest ih => exact ih _ (ctrlInv_toggle s ok h)

/-- C9: stopping when already stopped is a no-op without error; starting
when already playing is a no-op without error (the code's dispatch on
`is_playing` never reaches the stream-opening branch again); and in every
state reachable from the initial one by button presses, at most one output
stream is running. -/
theorem C9_lifecycle_invariants :
    (∀ s : Ctrl, s.is_playing = false → stop s = s) ∧
    (∀ (s : Ctrl) (ok : Bool), s.is_playing = true → start s ok = (s, none)) ∧
    (∀ presses : List Bool, (runToggles initCtrl presses).active ≤ 1) := by
  refine ⟨?_, ?_, ?_⟩
  · intro s hs
    simp [stop, hs]
  · intro s ok hs
    simp [start, hs]
  · intro presses
    have h := ctrlInv_runToggles presses initCtrl ⟨by simp [initCtrl], by simp [initCtrl]⟩
    obtain ⟨h1, h2⟩ := h
    cases hsa : (runToggles initCtrl presses).streamActive with
    | false => simp [h2 hsa]
    | true => simp [(h1 hsa).1]

/-- C9 (witness): `C9_lifecycle_invariants` instantiated at the initial
state, at the state after one successful start, and at a concrete press
sequence. -/
theorem C9_lifecycle_invariants_witness :
    stop initCtrl = initCtrl ∧
    start (toggle_playback initCtrl true).1 true = ((toggle_playback initCtrl true).1, none) ∧
    (runToggles initCtrl [true, true, false]).active ≤ 1 :=
  ⟨C9_lifecycle_invariants.1 initCtrl rfl,
    C9_lifecycle_invariants.2.1 (toggle_playback initCtrl true).1 true rfl,
    C9_lifecycle_invariants.2.2 [true, true, false]⟩

/-- C10: at construction the filter delay state is zero, so the first
sample of the first generated block is `feedforward * x[0]` — no residual
energy before any playback. -/
theorem C10_first_sample (x : ℚ) (xs : List ℚ) :
    initState.zi = 0 ∧
    (lfilter initState.b_coef initState.a1_coef initState.zi (x :: xs)).1.headI =
      initState.b_coef * x := by
  constructor
  · rfl
  · show initState.b_coef * x + initState.zi = initState.b_coef * x
    show initState.b_coef * x + 0 = initState.b_coef * x
    ring
